import Mathlib

set_option autoImplicit false

/-
Shallow embedding of the firestore bloom-filter watch test script
(packages/firestore/scripts/bloom_filter_watch_test.ts) and of the
BloomFilter value type exercised by its unit tests.

The watch-stream part (TargetState, WatchStream) is translated directly
from the source.  TypeScript `throw` is rendered as `Except.error`; since
every throw in the source happens before any field assignment, an
`Except.error` result faithfully means "no state change".  The mutable
`Map<number, TargetState>` registry is rendered as an association list in
insertion order; object references into the map are rendered as keys, with
writes going back through the key.
-/

namespace FirestoreWatch

/-- Resume token payload: the source type is `string | Uint8Array`
(nullability is modelled with `Option`). Bytes are `Nat`s below 256. -/
inductive ResumeToken where
  | str (s : String)
  | bytes (b : List Nat)
deriving DecidableEq, Repr

/-- State of one watch target, from `class TargetState`:
`_added`, `_current`, `_resumeToken` (initially `false`, `false`, `null`). -/
structure TargetState where
  added : Bool
  current : Bool
  resumeToken : Option ResumeToken
deriving DecidableEq, Repr

/-- The state a freshly constructed `TargetState` starts in. -/
def TargetState.init : TargetState :=
  { added := false, current := false, resumeToken := none }

/-- `TargetState.onAdded()`: throws when already added, otherwise sets
`_added = true; _current = false`. -/
def TargetState.onAdded (ts : TargetState) : Except String TargetState :=
  if ts.added then
    .error "onAdded() invoked when already added."
  else
    .ok { ts with added := true, current := false }

/-- `TargetState.onRemoved()`: throws when not added, otherwise sets
`_added = false; _current = false`. -/
def TargetState.onRemoved (ts : TargetState) : Except String TargetState :=
  if !ts.added then
    .error "onRemoved() invoked when not added."
  else
    .ok { ts with added := false, current := false }

/-- `TargetState.onCurrent()`: throws when not added, otherwise sets
`_current = true`. -/
def TargetState.onCurrent (ts : TargetState) : Except String TargetState :=
  if !ts.added then
    .error "onCurrent() invoked when not added."
  else
    .ok { ts with current := true }

/-- `TargetState.onReset()`: throws when not added, otherwise sets
`_current = false`. -/
def TargetState.onReset (ts : TargetState) : Except String TargetState :=
  if !ts.added then
    .error "onReset() invoked when not added."
  else
    .ok { ts with current := false }

/-- `TargetState.onNoChange(resumeToken)`: throws when not added, then
throws when not current; otherwise stores the token when it is non-null. -/
def TargetState.onNoChange (ts : TargetState) (resumeToken : Option ResumeToken) :
    Except String TargetState :=
  if !ts.added then
    .error "onNoChange() invoked when not added."
  else if !ts.current then
    .error "onNoChange() invoked when not current."
  else
    match resumeToken with
    | some token => .ok { ts with resumeToken := some token }
    | none => .ok ts

/-- Field filter of the outbound query, from the object literal in
`WatchStream.addTarget`: `{ field: { fieldPath }, op: "EQUAL", value: { stringValue } }`. -/
structure FieldFilter where
  fieldPath : String
  op : String
  stringValue : String
deriving DecidableEq, Repr

/-- Structured query of the outbound message:
`{ from: [{collectionId}], where: { fieldFilter } }`. -/
structure StructuredQuery where
  fromCollectionId : String
  whereFieldFilter : FieldFilter
deriving DecidableEq, Repr

/-- Query of the outbound message: `{ parent, structuredQuery }`. -/
structure TargetQuery where
  parent : String
  structuredQuery : StructuredQuery
deriving DecidableEq, Repr

/-- Outbound "add target" protocol message, from the `ListenRequest` literal
built in `WatchStream.addTarget`: `{ addTarget: { targetId, query } }`. -/
structure ListenRequest where
  targetId : Int
  query : TargetQuery
deriving DecidableEq, Repr

/-- Inbound `targetChange` message: optional list of target ids, a change
type tag, and an optional resume token (`targetIds?`, `targetChangeType`,
`resumeToken?`). -/
structure TargetChange where
  targetIds : Option (List Int)
  targetChangeType : String
  resumeToken : Option ResumeToken
deriving DecidableEq, Repr

/-- First-match lookup in the target registry, modelling
`Map.get` / `Map.has` (keys are unique by construction). -/
def lookupTarget : List (Int × TargetState) → Int → Option TargetState
  | [], _ => none
  | (k, v) :: rest, targetId => if k = targetId then some v else lookupTarget rest targetId

/-- Replace the value at a key in the registry, modelling in-place mutation
of the `TargetState` object reached through the `Map`. -/
def setTarget : List (Int × TargetState) → Int → TargetState → List (Int × TargetState)
  | [], _, _ => []
  | (k, v) :: rest, targetId, ts =>
    if k = targetId then (k, ts) :: rest else (k, v) :: setTarget rest targetId ts

/-- State of a `WatchStream`.  `streamOpen` models `_stream !== null`;
`closed` models `_closed`; `targets` models the `_targets` map in insertion
order.  `sentRequests` records every message passed to `stream.send`, and
`acquiredCount` / `releasedCount` count calls to `connection.openStream`
and `stream.close()` on the underlying channel, so that resource-usage
claims are statable. -/
structure WatchStream where
  projectId : String
  streamOpen : Bool
  closed : Bool
  targets : List (Int × TargetState)
  sentRequests : List ListenRequest
  acquiredCount : Nat
  releasedCount : Nat
deriving DecidableEq, Repr

/-- A `WatchStream` as freshly constructed: no stream, not closed, empty
registry. -/
def WatchStream.mk0 (projectId : String) : WatchStream :=
  { projectId := projectId
    streamOpen := false
    closed := false
    targets := []
    sentRequests := []
    acquiredCount := 0
    releasedCount := 0 }

/-- `WatchStream.open()`: throws when a stream already exists, throws when
closed; otherwise acquires the channel (`connection.openStream`) and stores
it.  The two guards run before `openStream` is called, so a failing call
acquires nothing. -/
def WatchStream.openStream (s : WatchStream) : Except String WatchStream :=
  if s.streamOpen then
    .error "open() may only be called once"
  else if s.closed then
    .error "open() may not be called after close()"
  else
    .ok { s with streamOpen := true, acquiredCount := s.acquiredCount + 1 }

/-- `WatchStream.close()`: returns immediately when already closed;
otherwise marks closed and, when a stream exists, closes it (counted in
`releasedCount`). -/
def WatchStream.close (s : WatchStream) : WatchStream :=
  if s.closed then
    s
  else if s.streamOpen then
    { s with closed := true, releasedCount := s.releasedCount + 1 }
  else
    { s with closed := true }

/-- The outbound message `WatchStream.addTarget` builds for the given
arguments, from the `ListenRequest` object literal in the source. -/
def WatchStream.addTargetRequest (s : WatchStream) (targetId : Int)
    (collectionId keyFilter valueFilter : String) : ListenRequest :=
  { targetId := targetId
    query :=
      { parent := "projects/" ++ s.projectId ++ "/databases/(default)/documents"
        structuredQuery :=
          { fromCollectionId := collectionId
            whereFieldFilter :=
              { fieldPath := keyFilter
                op := "EQUAL"
                stringValue := valueFilter } } } }

/-- `WatchStream.addTarget(targetId, collectionId, keyFilter, valueFilter)`:
throws when no stream exists, when closed, or when the target id is already
used (all three guards precede the send); otherwise sends the message and
then registers a fresh `TargetState` under the id. -/
def WatchStream.addTarget (s : WatchStream) (targetId : Int)
    (collectionId keyFilter valueFilter : String) : Except String WatchStream :=
  if !s.streamOpen then
    .error "open() must be called before addTarget()"
  else if s.closed then
    .error "addTarget() may not be called after close()"
  else if (lookupTarget s.targets targetId).isSome then
    .error "targetId is already used"
  else
    .ok { s with
          sentRequests :=
            s.sentRequests ++ [s.addTargetRequest targetId collectionId keyFilter valueFilter]
          targets := s.targets ++ [(targetId, TargetState.init)] }

/-- `WatchStream._targetStatesForTargetChange`: map each listed id to its
registered state, throwing on the first unknown id; when the list of ids is
empty (or absent), the event applies to every registered target.  The
source returns the `TargetState` references; here the equivalent keys are
returned, writes going back through `setTarget`. -/
def WatchStream.targetStatesForTargetChange (s : WatchStream) (tc : TargetChange) :
    Except String (List Int) :=
  let targetIds := tc.targetIds.getD []
  if targetIds.all fun targetId => (lookupTarget s.targets targetId).isSome then
    if targetIds.length > 0 then
      .ok targetIds
    else
      .ok (s.targets.map Prod.fst)
  else
    .error "TargetChange specifies an unknown targetId"

/-- Body of the `switch (targetChange.targetChangeType)` in
`WatchStream._onTargetChange`, applied to one target state. -/
def TargetState.applyChange (ts : TargetState) (changeType : String)
    (token : Option ResumeToken) : Except String TargetState :=
  match changeType with
  | "ADD" => ts.onAdded
  | "REMOVE" => ts.onRemoved
  | "CURRENT" => ts.onCurrent
  | "RESET" => ts.onReset
  | "NO_CHANGE" => ts.onNoChange token
  | _ => .error "unknown targetChangeType"

/-- The `for (const targetState of targetStates)` loop of
`WatchStream._onTargetChange`: apply the change to each resolved target in
order, each application seeing the previous ones' updates (the source
mutates the shared objects in place). -/
def applyChangeToTargets (targets : List (Int × TargetState)) (changeType : String)
    (token : Option ResumeToken) : List Int → Except String (List (Int × TargetState))
  | [] => .ok targets
  | targetId :: rest =>
    match lookupTarget targets targetId with
    | none => .error "TargetChange specifies an unknown targetId"
    | some ts =>
      (ts.applyChange changeType token).bind fun ts2 =>
        applyChangeToTargets (setTarget targets targetId ts2) changeType token rest

/-- `WatchStream._onTargetChange`: resolve the affected targets, then apply
the transition selected by `targetChangeType` to each of them. -/
def WatchStream.onTargetChange (s : WatchStream) (tc : TargetChange) :
    Except String WatchStream :=
  (s.targetStatesForTargetChange tc).bind fun targetIds =>
    (applyChangeToTargets s.targets tc.targetChangeType tc.resumeToken targetIds).map
      fun targets2 => { s with targets := targets2 }

/-- Modelled from the spec: the error taxonomy of BloomFilter construction
(`InvalidPadding`, `InvalidHashCount`), whose implementation file
(`src/remote/bloom_filter.ts`) is not among the available sources — only
its unit tests are.  Each error carries the offending value, as the test
file's expected messages show (`Invalid padding: -1`,
`Invalid hash count: 0`). -/
inductive BloomFilterError where
  | invalidPadding (padding : Int)
  | invalidHashCount (hashCount : Int)
deriving DecidableEq, Repr

/-- Modelled from the spec: the immutable BloomFilter value — a byte
bitmap, a padding count and a hash count (`src/remote/bloom_filter.ts` is
not among the available sources).  Bytes are `Nat`s below 256. -/
structure BloomFilter where
  bits : List Nat
  padding : Int
  hashCount : Int
deriving DecidableEq, Repr

/-- Modelled from the spec: construction-time validation, in the spec's
order.  Empty bitmap: padding must be 0 (else `InvalidPadding`), hash count
must be nonnegative (else `InvalidHashCount`).  Non-empty bitmap: padding
must lie in `[0,7]` (else `InvalidPadding`), hash count must be at least 1
(else `InvalidHashCount`).  Validation is atomic: an error yields no
instance. -/
def BloomFilter.create (bits : List Nat) (padding hashCount : Int) :
    Except BloomFilterError BloomFilter :=
  if bits.length = 0 then
    if padding ≠ 0 then
      .error (.invalidPadding padding)
    else if hashCount < 0 then
      .error (.invalidHashCount hashCount)
    else
      .ok { bits := bits, padding := padding, hashCount := hashCount }
  else
    if padding < 0 ∨ 7 < padding then
      .error (.invalidPadding padding)
    else if hashCount < 1 then
      .error (.invalidHashCount hashCount)
    else
      .ok { bits := bits, padding := padding, hashCount := hashCount }

/-- Modelled from the spec: `bitCount = bits.length * 8 - padding`, except
an empty bitmap always has `bitCount = 0`. -/
def BloomFilter.bitCount (bf : BloomFilter) : Int :=
  if bf.bits.length = 0 then 0 else bf.bits.length * 8 - bf.padding

/-- Modelled from the spec: UTF-8 encoding of one Unicode code point as a
list of bytes (the standard 1- to 4-byte scheme; keys are processed as raw
UTF-8 bytes, not code points). -/
def utf8EncodeChar (c : Nat) : List Nat :=
  if c < 0x80 then
    [c]
  else if c < 0x800 then
    [0xC0 + c / 64, 0x80 + c % 64]
  else if c < 0x10000 then
    [0xE0 + c / 4096, 0x80 + c / 64 % 64, 0x80 + c % 64]
  else
    [0xF0 + c / 262144, 0x80 + c / 4096 % 64, 0x80 + c / 64 % 64, 0x80 + c % 64]

/-- Modelled from the spec: a key is hashed over its UTF-8 byte sequence. -/
def utf8Encode (s : String) : List Nat :=
  (s.data.map fun c => utf8EncodeChar c.toNat).flatten

/-- Two's-complement wrap of an integer into the signed 64-bit range
`[-2^63, 2^63)`. -/
def toSigned64 (n : Int) : Int :=
  (n + 2 ^ 63) % 2 ^ 64 - 2 ^ 63

/-- Modelled from the spec: probe position
`p_i = (h1 + i * h2) mod bitCount`, the combination wrapped to a signed
64-bit integer and the modulo normalizing any negative intermediate into
`[0, bitCount)` (Euclidean `%` on `Int` is exactly that rule for a
positive modulus). -/
def probePosition (h1 h2 : Int) (bitCount : Int) (i : Nat) : Int :=
  toSigned64 (h1 + i * h2) % bitCount

/-- Modelled from the spec: test bit `p` of the bitmap — byte index
`p / 8`, bit index `p % 8`, least-significant-bit first. -/
def getBit (bits : List Nat) (p : Nat) : Bool :=
  Nat.testBit (bits.getD (p / 8) 0) (p % 8)

/-- Modelled from the spec: `mightContain(key)`.  Always `false` when
`bitCount == 0`; otherwise encode the key as UTF-8 bytes, hash them into
two 64-bit halves `(h1, h2)`, and return `true` iff every probed bit is
set.  The 128-bit hash itself lives outside the available sources, so it
is a parameter `hash` from byte sequences to the two signed 64-bit
halves. -/
def BloomFilter.mightContain (hash : List Nat → Int × Int) (bf : BloomFilter)
    (key : String) : Bool :=
  if bf.bitCount = 0 then
    false
  else
    let h := hash (utf8Encode key)
    (List.range bf.hashCount.toNat).all fun i =>
      getBit bf.bits (probePosition h.1 h.2 bf.bitCount i).toNat

/-- Whether a construction attempt failed with the padding-specific error. -/
def isPaddingError : Except BloomFilterError BloomFilter → Bool
  | .error (.invalidPadding _) => true
  | _ => false

/-- Whether a construction attempt failed with the hash-count-specific error. -/
def isHashCountError : Except BloomFilterError BloomFilter → Bool
  | .error (.invalidHashCount _) => true
  | _ => false

/-- Iterated `onRemoved` followed by `onAdded`, the add/remove reuse cycle
on a single `TargetState` instance. -/
def removeAddCycle : Nat → TargetState → Except String TargetState
  | 0, ts => .ok ts
  | n + 1, ts => (ts.onRemoved.bind TargetState.onAdded).bind (removeAddCycle n)

theorem onAdded_resumeToken (ts ts2 : TargetState) (h : ts.onAdded = .ok ts2) :
    ts2.resumeToken = ts.resumeToken := by
  unfold TargetState.onAdded at h
  split at h
  · exact absurd h (by simp)
  · injection h with h2
    subst h2
    rfl

theorem onRemoved_resumeToken (ts ts2 : TargetState) (h : ts.onRemoved = .ok ts2) :
    ts2.resumeToken = ts.resumeToken := by
  unfold TargetState.onRemoved at h
  split at h
  · exact absurd h (by simp)
  · injection h with h2
    subst h2
    rfl

theorem onCurrent_resumeToken (ts ts2 : TargetState) (h : ts.onCurrent = .ok ts2) :
    ts2.resumeToken = ts.resumeToken := by
  unfold TargetState.onCurrent at h
  split at h
  · exact absurd h (by simp)
  · injection h with h2
    subst h2
    rfl

theorem onReset_resumeToken (ts ts2 : TargetState) (h : ts.onReset = .ok ts2) :
    ts2.resumeToken = ts.resumeToken := by
  unfold TargetState.onReset at h
  split at h
  · exact absurd h (by simp)
  · injection h with h2
    subst h2
    rfl

theorem onNoChange_resumeToken_none (ts ts2 : TargetState)
    (h : ts.onNoChange none = .ok ts2) : ts2.resumeToken = ts.resumeToken := by
  unfold TargetState.onNoChange at h
  split at h
  · exact absurd h (by simp)
  · split at h
    · exact absurd h (by simp)
    · injection h with h2
      subst h2
      rfl

theorem onNoChange_resumeToken_some (ts ts2 : TargetState) (tok : ResumeToken)
    (h : ts.onNoChange (some tok) = .ok ts2) : ts2.resumeToken = some tok := by
  unfold TargetState.onNoChange at h
  split at h
  · exact absurd h (by simp)
  · split at h
    · exact absurd h (by simp)
    · injection h with h2
      subst h2
      rfl

theorem removeAddCycle_ok : ∀ (n : Nat) (ts : TargetState), ts.added = true →
    removeAddCycle (n + 1) ts = .ok { ts with added := true, current := false } := by
  intro n
  induction n with
  | zero =>
    intro ts h
    obtain ⟨a, c, r⟩ := ts
    cases h
    rfl
  | succ n ih =>
    intro ts h
    obtain ⟨a, c, r⟩ := ts
    cases h
    have step : removeAddCycle (n + 1 + 1) (⟨true, c, r⟩ : TargetState) =
        removeAddCycle (n + 1) (⟨true, false, r⟩ : TargetState) := rfl
    rw [step, ih ⟨true, false, r⟩ rfl]

/-- C3: each `TargetState` transition raises an error exactly when its
precondition fails and otherwise has its stated effect: `onAdded` fails iff
already added, else sets `added := true` and `current := false`;
`onRemoved`, `onCurrent`, `onReset` fail iff not added, else set
`added, current := false, false`, `current := true`, `current := false`
respectively; `onNoChange` fails iff not added or not current, else
records the token when it is present. -/
theorem c3_targetState_transitions (ts : TargetState) (token : ResumeToken)
    (tok : Option ResumeToken) :
    (ts.onAdded.isOk = false ↔ ts.added = true)
    ∧ (ts.added = false →
        ts.onAdded = .ok { ts with added := true, current := false })
    ∧ (ts.onRemoved.isOk = false ↔ ts.added = false)
    ∧ (ts.added = true →
        ts.onRemoved = .ok { ts with added := false, current := false })
    ∧ (ts.onCurrent.isOk = false ↔ ts.added = false)
    ∧ (ts.added = true → ts.onCurrent = .ok { ts with current := true })
    ∧ (ts.onReset.isOk = false ↔ ts.added = false)
    ∧ (ts.added = true → ts.onReset = .ok { ts with current := false })
    ∧ ((ts.onNoChange tok).isOk = false ↔ (ts.added = false ∨ ts.current = false))
    ∧ (ts.added = true → ts.current = true →
        ts.onNoChange (some token) = .ok { ts with resumeToken := some token }
          ∧ ts.onNoChange none = .ok ts) := by
  obtain ⟨a, c, r⟩ := ts
  cases a <;> cases c <;> cases tok <;>
    simp [TargetState.onAdded, TargetState.onRemoved, TargetState.onCurrent,
      TargetState.onReset, TargetState.onNoChange, Except.isOk, Except.toBool]

theorem c3_witness :
    TargetState.onAdded { added := false, current := false, resumeToken := none } =
      .ok { added := true, current := false, resumeToken := none }
    ∧ TargetState.onNoChange { added := true, current := true, resumeToken := none }
        (some (.str "tok")) =
      .ok { added := true, current := true, resumeToken := some (.str "tok") } := by
  refine ⟨?_, ?_⟩
  · exact (c3_targetState_transitions ⟨false, false, none⟩ (.str "tok") none).2.1 rfl
  · exact ((c3_targetState_transitions ⟨true, true, none⟩ (.str "tok")
      none).2.2.2.2.2.2.2.2.2 rfl rfl).1

/-- C9: from a `TargetState` that is added, `onRemoved` succeeds and yields
a state equivalent to not-added (`added = false`, `current = false`), from
which `onAdded` succeeds again, and the remove/add cycle repeats any number
of times on the same instance. -/
theorem c9_remove_add_cycle (ts : TargetState) (h : ts.added = true) :
    ts.onRemoved = .ok { ts with added := false, current := false }
    ∧ TargetState.onAdded { ts with added := false, current := false } =
        .ok { ts with added := true, current := false }
    ∧ ∀ n : Nat, removeAddCycle (n + 1) ts =
        .ok { ts with added := true, current := false } := by
  refine ⟨?_, ?_, fun n => removeAddCycle_ok n ts h⟩
  · simp [TargetState.onRemoved, h]
  · simp [TargetState.onAdded]

theorem c9_witness :
    removeAddCycle 3 { added := true, current := true, resumeToken := none } =
      .ok { added := true, current := false, resumeToken := none } :=
  (c9_remove_add_cycle ⟨true, true, none⟩ rfl).2.2 2

/-- C10: the `resumeToken` field is modified only by a successful
`onNoChange` carrying a present token; successful `onAdded`, `onRemoved`,
`onCurrent`, `onReset` and `onNoChange` with an absent token leave it
unchanged (a failing transition throws before assigning anything, so it is
rendered as an `Except.error` with no successor state at all), and hence a
recorded token survives remove/add cycles on the same instance. -/
theorem c10_resumeToken_frame (ts : TargetState) (tok : ResumeToken) :
    (∀ ts2, ts.onAdded = .ok ts2 → ts2.resumeToken = ts.resumeToken)
    ∧ (∀ ts2, ts.onRemoved = .ok ts2 → ts2.resumeToken = ts.resumeToken)
    ∧ (∀ ts2, ts.onCurrent = .ok ts2 → ts2.resumeToken = ts.resumeToken)
    ∧ (∀ ts2, ts.onReset = .ok ts2 → ts2.resumeToken = ts.resumeToken)
    ∧ (∀ ts2, ts.onNoChange none = .ok ts2 → ts2.resumeToken = ts.resumeToken)
    ∧ (∀ ts2, ts.onNoChange (some tok) = .ok ts2 → ts2.resumeToken = some tok)
    ∧ (ts.added = true → ∀ n : Nat,
        (removeAddCycle (n + 1) ts).map TargetState.resumeToken = .ok ts.resumeToken) := by
  refine ⟨fun ts2 h => onAdded_resumeToken ts ts2 h,
    fun ts2 h => onRemoved_resumeToken ts ts2 h,
    fun ts2 h => onCurrent_resumeToken ts ts2 h,
    fun ts2 h => onReset_resumeToken ts ts2 h,
    fun ts2 h => onNoChange_resumeToken_none ts ts2 h,
    fun ts2 h => onNoChange_resumeToken_some ts ts2 tok h,
    fun h n => ?_⟩
  rw [removeAddCycle_ok n ts h]
  rfl

theorem c10_witness :
    TargetState.resumeToken
        { added := true, current := true, resumeToken := some (.str "tok") } =
      some (.str "tok") :=
  (c10_resumeToken_frame ⟨true, true, some (.str "old")⟩ (.str "tok")).2.2.2.2.2.1
    ⟨true, true, some (.str "tok")⟩ rfl

/-- C7: `open()` succeeds only from the unopened, not-closed state — a
second call, or a call after `close()`, fails (and since both guards run
before `connection.openStream`, a failing call acquires no channel, which
the model renders by the error result leaving the state, `acquiredCount`
included, untouched); `close()` after `close()` is a no-op, the underlying
channel is released at most once, and the closed flag never reverts. -/
theorem c7_open_close_lifecycle (s : WatchStream) :
    (s.streamOpen = true → s.openStream = .error "open() may only be called once")
    ∧ (s.streamOpen = false → s.closed = true →
        s.openStream = .error "open() may not be called after close()")
    ∧ (s.streamOpen = false → s.closed = false →
        s.openStream =
          .ok { s with streamOpen := true, acquiredCount := s.acquiredCount + 1 })
    ∧ (s.openStream.isOk = true ↔ s.streamOpen = false ∧ s.closed = false)
    ∧ s.close.closed = true
    ∧ (s.closed = true → s.close = s)
    ∧ s.close.close = s.close
    ∧ s.close.releasedCount ≤ s.releasedCount + 1
    ∧ s.close.close.releasedCount = s.close.releasedCount
    ∧ (∀ s2, s.openStream = .ok s2 → s2.closed = s.closed) := by
  obtain ⟨p, so, cl, tg, sr, ac, rc⟩ := s
  cases so <;> cases cl <;>
    simp [WatchStream.openStream, WatchStream.close, Except.isOk, Except.toBool]

theorem c7_witness :
    WatchStream.openStream ⟨"p", true, false, [], [], 1, 0⟩ =
      .error "open() may only be called once"
    ∧ WatchStream.openStream (WatchStream.close ⟨"p", false, false, [], [], 0, 0⟩) =
      .error "open() may not be called after close()"
    ∧ WatchStream.openStream (WatchStream.mk0 "p") = .ok ⟨"p", true, false, [], [], 1, 0⟩
    ∧ WatchStream.close (WatchStream.close ⟨"p", true, false, [], [], 1, 0⟩) =
      WatchStream.close ⟨"p", true, false, [], [], 1, 0⟩ := by
  refine ⟨?_, ?_, ?_, ?_⟩
  · exact (c7_open_close_lifecycle ⟨"p", true, false, [], [], 1, 0⟩).1 rfl
  · exact (c7_open_close_lifecycle
      (WatchStream.close ⟨"p", false, false, [], [], 0, 0⟩)).2.1 rfl rfl
  · exact (c7_open_close_lifecycle (WatchStream.mk0 "p")).2.2.1 rfl rfl
  · exact (c7_open_close_lifecycle ⟨"p", true, false, [], [], 1, 0⟩).2.2.2.2.2.2.1

/-- C8: `addTarget` fails when the stream was never opened, when it is
closed, or when the target id is already registered (all three guards
precede the send, so the duplicate case sends no second message and leaves
the registry unchanged — rendered by the error result leaving the state,
`sentRequests` included, untouched); on success the outbound message is
appended to the send log and a fresh `TargetState` — still unacknowledged,
`added = false` — is registered in the same step, with no server
acknowledgment involved. -/
theorem c8_addTarget_contract (s : WatchStream) (targetId : Int)
    (collectionId keyFilter valueFilter : String) :
    (s.streamOpen = false →
      s.addTarget targetId collectionId keyFilter valueFilter =
        .error "open() must be called before addTarget()")
    ∧ (s.streamOpen = true → s.closed = true →
        s.addTarget targetId collectionId keyFilter valueFilter =
          .error "addTarget() may not be called after close()")
    ∧ (s.streamOpen = true → s.closed = false →
        (lookupTarget s.targets targetId).isSome = true →
        s.addTarget targetId collectionId keyFilter valueFilter =
          .error "targetId is already used")
    ∧ (s.streamOpen = true → s.closed = false →
        lookupTarget s.targets targetId = none →
        s.addTarget targetId collectionId keyFilter valueFilter =
          .ok { s with
                sentRequests := s.sentRequests ++
                  [s.addTargetRequest targetId collectionId keyFilter valueFilter]
                targets := s.targets ++ [(targetId, TargetState.init)] })
    ∧ TargetState.init.added = false := by
  refine ⟨fun h1 => ?_, fun h1 h2 => ?_, fun h1 h2 h3 => ?_, fun h1 h2 h3 => ?_, rfl⟩
  · simp [WatchStream.addTarget, h1]
  · simp [WatchStream.addTarget, h1, h2]
  · simp [WatchStream.addTarget, h1, h2, h3]
  · simp [WatchStream.addTarget, h1, h2, h3]

theorem c8_witness :
    WatchStream.addTarget ⟨"p", true, false, [(1, TargetState.init)], [], 1, 0⟩
        1 "c" "k" "v" =
      .error "targetId is already used"
    ∧ WatchStream.addTarget ⟨"p", true, false, [], [], 1, 0⟩ 1 "c" "k" "v" =
      .ok ⟨"p", true, false, [(1, TargetState.init)],
           [WatchStream.addTargetRequest ⟨"p", true, false, [], [], 1, 0⟩ 1 "c" "k" "v"],
           1, 0⟩ := by
  constructor
  · exact (c8_addTarget_contract ⟨"p", true, false, [(1, TargetState.init)], [], 1, 0⟩
      1 "c" "k" "v").2.2.1 rfl rfl rfl
  · exact (c8_addTarget_contract ⟨"p", true, false, [], [], 1, 0⟩
      1 "c" "k" "v").2.2.2.1 rfl rfl rfl

theorem lookupTarget_cons_ne (k targetId : Int) (x : TargetState)
    (targets : List (Int × TargetState)) (h : k ≠ targetId) :
    lookupTarget ((k, x) :: targets) targetId = lookupTarget targets targetId := by
  simp [lookupTarget, h]

theorem setTarget_cons_ne (k targetId : Int) (x ts : TargetState)
    (targets : List (Int × TargetState)) (h : k ≠ targetId) :
    setTarget ((k, x) :: targets) targetId ts = (k, x) :: setTarget targets targetId ts := by
  simp [setTarget, h]

theorem except_map_bind {α β γ : Type} (e : Except String α) (f : α → Except String β)
    (g : β → γ) : (e.bind f).map g = e.bind fun a => (f a).map g := by
  cases e <;> rfl

theorem applyChangeToTargets_skip (k : Int) (x : TargetState) (changeType : String)
    (token : Option ResumeToken) :
    ∀ (ids : List Int) (targets : List (Int × TargetState)), k ∉ ids →
    applyChangeToTargets ((k, x) :: targets) changeType token ids =
      (applyChangeToTargets targets changeType token ids).map fun r => (k, x) :: r := by
  intro ids
  induction ids with
  | nil => intro targets _; rfl
  | cons targetId rest ih =>
    intro targets h
    have hne : k ≠ targetId := fun he => h (he ▸ List.mem_cons_self targetId rest)
    simp only [applyChangeToTargets, lookupTarget_cons_ne k targetId x targets hne]
    cases hl : lookupTarget targets targetId with
    | none => rfl
    | some ts =>
      rw [except_map_bind]
      cases happ : TargetState.applyChange ts changeType token with
      | error e => simp [happ, Except.bind]
      | ok ts2 =>
        simp only [happ, Except.bind]
        rw [setTarget_cons_ne k targetId x ts2 targets hne]
        exact ih (setTarget targets targetId ts2) fun hm => h (List.mem_cons_of_mem _ hm)

theorem applyChangeToTargets_all (changeType : String) (token : Option ResumeToken)
    (g : TargetState → TargetState) :
    ∀ targets : List (Int × TargetState), (targets.map Prod.fst).Nodup →
    (∀ kv ∈ targets, TargetState.applyChange kv.2 changeType token = .ok (g kv.2)) →
    applyChangeToTargets targets changeType token (targets.map Prod.fst) =
      .ok (targets.map fun kv => (kv.1, g kv.2)) := by
  intro targets
  induction targets with
  | nil => intro _ _; rfl
  | cons kv rest ih =>
    obtain ⟨k, v⟩ := kv
    intro hnodup hall
    have hcons : (k :: rest.map Prod.fst).Nodup := by
      simpa only [List.map_cons] using hnodup
    have hknotin : k ∉ rest.map Prod.fst := (List.nodup_cons.mp hcons).1
    have hnodup2 : (rest.map Prod.fst).Nodup := (List.nodup_cons.mp hcons).2
    have hv : TargetState.applyChange v changeType token = .ok (g v) :=
      hall (k, v) (List.mem_cons_self _ _)
    have hrest : ∀ kv ∈ rest, TargetState.applyChange kv.2 changeType token = .ok (g kv.2) :=
      fun kv hm => hall kv (List.mem_cons_of_mem _ hm)
    simp only [List.map_cons, applyChangeToTargets, lookupTarget, setTarget,
      eq_self_iff_true, if_true, hv, Except.bind]
    rw [applyChangeToTargets_skip k (g v) changeType token (rest.map Prod.fst) rest hknotin,
      ih hnodup2 hrest]
    rfl

theorem applyChange_unknown (ts : TargetState) (changeType : String)
    (token : Option ResumeToken) (h1 : changeType ≠ "ADD") (h2 : changeType ≠ "REMOVE")
    (h3 : changeType ≠ "CURRENT") (h4 : changeType ≠ "RESET")
    (h5 : changeType ≠ "NO_CHANGE") :
    ts.applyChange changeType token = .error "unknown targetChangeType" := by
  unfold TargetState.applyChange
  split <;> first | rfl | contradiction

/-- C2: resolving a `targetChange` that lists one or more target ids fails
the whole dispatch when any id is unknown — the resolution error happens
before any transition is applied, so no target named in the message is
touched (the model is atomic: the dispatch returns the resolution error and
no successor state); when all listed ids are known they are resolved
exactly; and a message listing zero ids (absent or empty list) broadcasts
the transition to every currently registered target. -/
theorem c2_targetChange_resolution (s : WatchStream) (tc : TargetChange)
    (g : TargetState → TargetState) :
    (∀ targetIds targetId, tc.targetIds = some targetIds → targetId ∈ targetIds →
      lookupTarget s.targets targetId = none →
      s.onTargetChange tc = .error "TargetChange specifies an unknown targetId")
    ∧ (∀ targetIds, tc.targetIds = some targetIds → targetIds ≠ [] →
        (∀ targetId ∈ targetIds, (lookupTarget s.targets targetId).isSome = true) →
        s.targetStatesForTargetChange tc = .ok targetIds)
    ∧ ((tc.targetIds = none ∨ tc.targetIds = some []) →
        (s.targets.map Prod.fst).Nodup →
        (∀ kv ∈ s.targets,
          TargetState.applyChange kv.2 tc.targetChangeType tc.resumeToken = .ok (g kv.2)) →
        s.onTargetChange tc =
          .ok { s with targets := s.targets.map fun kv => (kv.1, g kv.2) }) := by
  refine ⟨?_, ?_, ?_⟩
  · intro targetIds targetId hids hmem hnone
    have hall : (targetIds.all fun targetId =>
        (lookupTarget s.targets targetId).isSome) = false := by
      rw [List.all_eq_false]
      exact ⟨targetId, hmem, by simp [hnone]⟩
    unfold WatchStream.onTargetChange WatchStream.targetStatesForTargetChange
    rw [hids]
    simp [hall, Except.bind]
  · intro targetIds hids hne hall
    unfold WatchStream.targetStatesForTargetChange
    rw [hids]
    simp [List.all_eq_true.mpr hall, List.length_pos.mpr hne]
  · intro hb hnodup hall
    have hres : s.targetStatesForTargetChange tc = .ok (s.targets.map Prod.fst) := by
      unfold WatchStream.targetStatesForTargetChange
      rcases hb with h | h <;> rw [h] <;> rfl
    unfold WatchStream.onTargetChange
    rw [hres]
    simp only [Except.bind]
    rw [applyChangeToTargets_all tc.targetChangeType tc.resumeToken g s.targets hnodup hall]
    rfl

theorem c2_witness :
    WatchStream.onTargetChange
        ⟨"p", true, false, [(1, TargetState.init), (2, TargetState.init)], [], 1, 0⟩
        { targetIds := some [3], targetChangeType := "ADD", resumeToken := none } =
      .error "TargetChange specifies an unknown targetId"
    ∧ WatchStream.onTargetChange
        ⟨"p", true, false, [(1, TargetState.init), (2, TargetState.init)], [], 1, 0⟩
        { targetIds := none, targetChangeType := "ADD", resumeToken := none } =
      .ok ⟨"p", true, false,
           [(1, ⟨true, false, none⟩), (2, ⟨true, false, none⟩)], [], 1, 0⟩ := by
  constructor
  · exact (c2_targetChange_resolution
      ⟨"p", true, false, [(1, TargetState.init), (2, TargetState.init)], [], 1, 0⟩
      { targetIds := some [3], targetChangeType := "ADD", resumeToken := none }
      id).1 [3] 3 rfl (by decide) rfl
  · exact (c2_targetChange_resolution
      ⟨"p", true, false, [(1, TargetState.init), (2, TargetState.init)], [], 1, 0⟩
      { targetIds := none, targetChangeType := "ADD", resumeToken := none }
      (fun ts => { ts with added := true, current := false })).2.2
      (Or.inl rfl) (by decide) (by intro kv hkv; fin_cases hkv <;> rfl)

/-- C4 counterexample: the claim says every `targetChange` whose change
type is unrecognized fails the dispatch, but when the message lists zero
target ids and no target is registered, the `for` loop over the resolved
(empty) set of targets never runs the `switch`, so the bogus change type is
never examined and the dispatch succeeds as a no-op. -/
theorem c4_counterexample :
    WatchStream.onTargetChange (WatchStream.mk0 "p")
        { targetIds := none, targetChangeType := "BOGUS", resumeToken := none } =
      .ok (WatchStream.mk0 "p") := rfl

/-- C4 (amended): a `targetChange` whose change type is not one of `ADD`,
`REMOVE`, `CURRENT`, `RESET`, `NO_CHANGE` fails the dispatch with an error
whenever the message resolves to at least one target state; when it
resolves to zero target states the dispatch is a no-op. -/
theorem c4_unknown_change_type (s : WatchStream) (tc : TargetChange)
    (targetId : Int) (rest : List Int)
    (h1 : tc.targetChangeType ≠ "ADD") (h2 : tc.targetChangeType ≠ "REMOVE")
    (h3 : tc.targetChangeType ≠ "CURRENT") (h4 : tc.targetChangeType ≠ "RESET")
    (h5 : tc.targetChangeType ≠ "NO_CHANGE")
    (h6 : s.targetStatesForTargetChange tc = .ok (targetId :: rest)) :
    (s.onTargetChange tc).isOk = false := by
  unfold WatchStream.onTargetChange
  rw [h6]
  simp only [Except.bind]
  cases hl : lookupTarget s.targets targetId with
  | none => simp [applyChangeToTargets, hl, Except.isOk, Except.toBool, Except.map]
  | some ts =>
    simp [applyChangeToTargets, hl,
      applyChange_unknown ts tc.targetChangeType tc.resumeToken h1 h2 h3 h4 h5,
      Except.bind, Except.isOk, Except.toBool, Except.map]

theorem c4_witness :
    (WatchStream.onTargetChange ⟨"p", true, false, [(1, TargetState.init)], [], 1, 0⟩
      { targetIds := some [1], targetChangeType := "BOGUS", resumeToken := none }).isOk =
      false :=
  c4_unknown_change_type ⟨"p", true, false, [(1, TargetState.init)], [], 1, 0⟩
    { targetIds := some [1], targetChangeType := "BOGUS", resumeToken := none }
    1 [] (by decide) (by decide) (by decide) (by decide) (by decide) rfl

/-- C1: for a filter with positive `bitCount`, `mightContain(key)` hashes
the UTF-8 bytes of the key into two 64-bit halves `(h1, h2)` and returns
`true` iff every probed bit — bit `p_i = (h1 + i*h2) mod bitCount` for
every `i` in `[0, hashCount)`, byte `p_i / 8`, bit `p_i % 8` — is set;
moreover every probe position is normalized into `[0, bitCount)`.  The
128-bit hash itself is outside the available sources and stays an abstract
parameter, so bit-exactness against the server-generated golden bitmaps is
verified only up to that hash. -/
theorem c1_mightContain_probes (hash : List Nat → Int × Int) (bf : BloomFilter)
    (key : String) (h : 0 < bf.bitCount) :
    (bf.mightContain hash key = true ↔
      ∀ i < bf.hashCount.toNat,
        getBit bf.bits
          (probePosition (hash (utf8Encode key)).1 (hash (utf8Encode key)).2
            bf.bitCount i).toNat = true)
    ∧ (∀ i : Nat,
        0 ≤ probePosition (hash (utf8Encode key)).1 (hash (utf8Encode key)).2 bf.bitCount i
        ∧ probePosition (hash (utf8Encode key)).1 (hash (utf8Encode key)).2 bf.bitCount i
            < bf.bitCount) := by
  constructor
  · have hne : ¬bf.bitCount = 0 := by omega
    simp only [BloomFilter.mightContain, hne, if_false, List.all_eq_true, List.mem_range]
  · intro i
    exact ⟨Int.emod_nonneg _ (by omega), Int.emod_lt_of_pos _ h⟩

theorem c1_witness :
    BloomFilter.mightContain (fun _ => (1, 3)) ⟨[255], 0, 2⟩ "a" = true :=
  (c1_mightContain_probes (fun _ => (1, 3)) ⟨[255], 0, 2⟩ "a" (by decide)).1.mpr
    (by decide)

/-- C5 (amended): construction fails with the padding-specific error
exactly when `bits.length == 0 ∧ padding ≠ 0` or
`bits.length > 0 ∧ padding ∉ [0,7]`; it fails with the hash-count-specific
error exactly when (`hashCount < 0` or `bits.length > 0 ∧ hashCount == 0`)
AND the padding is valid — the padding check runs first in each branch, so
when both inputs are bad the padding error wins; construction succeeds
exactly when neither condition holds, and a failure returns an error with
no instance (the `Except` result is atomic). -/
theorem c5_construction_validation (bits : List Nat) (padding hashCount : Int) :
    (isPaddingError (BloomFilter.create bits padding hashCount) = true ↔
      (bits.length = 0 ∧ padding ≠ 0) ∨ (0 < bits.length ∧ (padding < 0 ∨ 7 < padding)))
    ∧ (isHashCountError (BloomFilter.create bits padding hashCount) = true ↔
        ((hashCount < 0 ∨ (0 < bits.length ∧ hashCount = 0))
          ∧ ¬((bits.length = 0 ∧ padding ≠ 0)
              ∨ (0 < bits.length ∧ (padding < 0 ∨ 7 < padding)))))
    ∧ ((BloomFilter.create bits padding hashCount).isOk = true ↔
        (¬((bits.length = 0 ∧ padding ≠ 0)
            ∨ (0 < bits.length ∧ (padding < 0 ∨ 7 < padding)))
         ∧ ¬(hashCount < 0 ∨ (0 < bits.length ∧ hashCount = 0)))) := by
  unfold BloomFilter.create
  cases bits with
  | nil =>
    rw [if_pos (show ([] : List Nat).length = 0 from rfl)]
    split_ifs with hp hh <;>
      simp [isPaddingError, isHashCountError, Except.isOk, Except.toBool] <;>
      omega
  | cons b bs =>
    rw [if_neg (show ¬(b :: bs).length = 0 by simp)]
    split_ifs with hp2 hh2 <;>
      simp [isPaddingError, isHashCountError, Except.isOk, Except.toBool] <;>
      omega

theorem c5_witness :
    isPaddingError (BloomFilter.create [0] (-1) 1) = true
    ∧ isHashCountError (BloomFilter.create [0] 1 0) = true
    ∧ (BloomFilter.create [0] 1 1).isOk = true := by
  refine ⟨?_, ?_, ?_⟩
  · exact (c5_construction_validation [0] (-1) 1).1.mpr (by decide)
  · exact (c5_construction_validation [0] 1 0).2.1.mpr (by decide)
  · exact (c5_construction_validation [0] 1 1).2.2.mpr (by decide)

/-- C5 counterexample: at `bits = []`, `padding = 1`, `hashCount = -1` the
hash count is negative — the claim's condition for a hash-count-specific
error — yet construction fails with the padding-specific error, because
the padding check runs first; so "fails with a hash-count-specific error
exactly when hashCount < 0 or ..." is false as stated. -/
theorem c5_counterexample :
    BloomFilter.create [] 1 (-1) = .error (.invalidPadding 1)
    ∧ (-1 : Int) < 0 ∧ isHashCountError (BloomFilter.create [] 1 (-1)) = false :=
  ⟨rfl, by decide, rfl⟩

/-- C6: a validly constructed BloomFilter over an empty bitmap has
`bitCount = 0` and `mightContain` returns `false` for every key and every
hash function. -/
theorem c6_empty_bloom_filter (padding hashCount : Int) (bf : BloomFilter)
    (hash : List Nat → Int × Int) (key : String)
    (h : BloomFilter.create [] padding hashCount = .ok bf) :
    bf.bitCount = 0 ∧ bf.mightContain hash key = false := by
  unfold BloomFilter.create at h
  rw [if_pos (show ([] : List Nat).length = 0 from rfl)] at h
  split at h
  · exact absurd h (by simp)
  · split at h
    · exact absurd h (by simp)
    · injection h with h2
      subst h2
      exact ⟨rfl, rfl⟩

theorem c6_witness :
    BloomFilter.bitCount ⟨[], 0, 0⟩ = 0
    ∧ BloomFilter.mightContain (fun _ => (0, 0)) ⟨[], 0, 0⟩ "abc" = false :=
  c6_empty_bloom_filter 0 0 ⟨[], 0, 0⟩ (fun _ => (0, 0)) "abc" rfl

end FirestoreWatch
